import Mathlib

/-!
Verification of the pspace core (from `src/__init__.py`): the
configuration-language parser (`parse_conf`), the parameter-space
expansion/collision engine (`compute_psets`, `name_datafile`, `compare`),
the subspace filter (`filter_psets`) and the queue-snapshot parser
(`get_qdata`).

Modelling conventions of the shallow embedding:
- Python strings are `List Char` (`Str`); Python string methods used by
  the source (`strip`, `split`, `replace`, `count`, `startswith`,
  `endswith`) are re-implemented below with Python semantics.
- Python floats are `ℚ`: every numeric literal occurring in a
  configuration is taken at its exact decimal value.  Binary-float
  rounding is outside the model; all concrete claims evaluated here use
  values on which float and rational arithmetic agree exactly.
- Python dicts are insertion-ordered association lists.
- A fatal path of the source (`sys.exit(1)` after a diagnostic, or an
  uncaught exception such as `ValueError` from `float`/unpacking or a
  `TypeError` from `numpy.arange`) is `Except.error` with a message
  describing the fatal condition; exact message text is not part of the
  model.
- Process-ambient state (the value of `$HOME` used by
  `os.path.expanduser`) is passed explicitly as an argument `home`;
  `os.path.abspath`/`os.path.relpath` normalisation against the current
  working directory is not modelled (the joined, unnormalised paths are
  recorded) — no claim depends on it.
-/

namespace Pspace

/-- Python strings are modelled as lists of characters. -/
abbrev Str := List Char

/-- Shorthand converting a Lean string literal into the `Str` model. -/
def str (s : String) : Str := s.toList

/-!
Kernel-computable rational arithmetic.  The `+ - * / ⁻¹` instances on
`ℚ` are `@[irreducible]` in this toolchain, so concrete evaluation of
the embedding would get stuck on them; the embedding therefore computes
with the `mkRat`/`Rat.divInt` normal forms below, and the bridging
lemmas identify them with the ordinary field operations for abstract
reasoning.
-/

/-- Addition on `ℚ` in a kernel-reducible form. -/
def qadd (a b : ℚ) : ℚ := mkRat (a.num * b.den + b.num * a.den) (a.den * b.den)

/-- Multiplication on `ℚ` in a kernel-reducible form. -/
def qmul (a b : ℚ) : ℚ := mkRat (a.num * b.num) (a.den * b.den)

/-- Subtraction on `ℚ` in a kernel-reducible form. -/
def qsub (a b : ℚ) : ℚ := qadd a (-b)

/-- Division on `ℚ` in a kernel-reducible form (division by zero gives
zero, as for the field operation). -/
def qdiv (a b : ℚ) : ℚ := Rat.divInt (a.num * b.den) (a.den * b.num)

theorem qadd_eq (a b : ℚ) : qadd a b = a + b := by
  rw [qadd, Rat.mkRat_eq_div]
  push_cast
  conv_rhs => rw [← Rat.num_div_den a, ← Rat.num_div_den b]
  rw [div_add_div _ _ (by exact_mod_cast a.den_nz) (by exact_mod_cast b.den_nz)]
  ring_nf

theorem qmul_eq (a b : ℚ) : qmul a b = a * b := by
  rw [qmul, Rat.mkRat_eq_div]
  push_cast
  conv_rhs => rw [← Rat.num_div_den a, ← Rat.num_div_den b]
  rw [div_mul_div_comm]

theorem qsub_eq (a b : ℚ) : qsub a b = a - b := by
  rw [qsub, qadd_eq, sub_eq_add_neg]

theorem qdiv_eq (a b : ℚ) : qdiv a b = a / b := by
  rcases eq_or_ne b 0 with rfl | hb
  · simp [qdiv]
  · have ha : (a.num : ℚ) = a * a.den :=
      (div_eq_iff (by exact_mod_cast a.den_nz)).mp (Rat.num_div_den a)
    have hbn : (b.num : ℚ) = b * b.den :=
      (div_eq_iff (by exact_mod_cast b.den_nz)).mp (Rat.num_div_den b)
    have hbn0 : (b.num : ℚ) ≠ 0 := by
      exact_mod_cast Rat.num_ne_zero.mpr hb
    rw [qdiv, Rat.divInt_eq_div]
    push_cast
    rw [div_eq_div_iff (mul_ne_zero (by exact_mod_cast a.den_nz) hbn0) hb]
    rw [ha, hbn]
    ring

/-- The ASCII whitespace characters recognised by Python `str.strip` /
`str.split` (space, tab, newline, carriage return, vertical tab, form
feed; the additional Unicode whitespace Python accepts does not occur
in the inputs considered here). -/
def isSpc (c : Char) : Bool :=
  c = ' ' ∨ c = '\t' ∨ c = '\n' ∨ c = '\r' ∨ c = '\x0b' ∨ c = '\x0c'

/-- Models Python `s.strip()`: remove leading and trailing whitespace. -/
def pyStrip (s : Str) : Str :=
  (((s.dropWhile isSpc).reverse).dropWhile isSpc).reverse

/-- Models Python `len(line) - len(line.lstrip())`: the number of
leading whitespace characters (how the source measures indentation). -/
def indentOf (s : Str) : Nat :=
  (s.takeWhile isSpc).length

/-- Models Python `s.replace(a, b)` for single characters. -/
def pyReplace (a b : Char) (s : Str) : Str :=
  s.map (fun c => if c = a then b else c)

/-- Helper for `pySplitWs`: accumulates the current token (reversed). -/
def pySplitWsAux : Str → Str → List Str
  | [], cur => if cur.isEmpty then [] else [cur.reverse]
  | c :: cs, cur =>
    if isSpc c then
      if cur.isEmpty then pySplitWsAux cs [] else cur.reverse :: pySplitWsAux cs []
    else pySplitWsAux cs (c :: cur)

/-- Models Python `s.split()` (split on whitespace runs, no empties). -/
def pySplitWs (s : Str) : List Str := pySplitWsAux s []

/-- Models Python `s.split(None, n)`: at most `n` splits on whitespace
runs; the remainder keeps its internal and trailing whitespace. -/
def pySplitWsLim : Nat → Str → List Str
  | 0, s =>
    let r := s.dropWhile isSpc
    if r.isEmpty then [] else [r]
  | n + 1, s =>
    let s1 := s.dropWhile isSpc
    if s1.isEmpty then [] else
      let tok := s1.takeWhile (fun c => ¬ isSpc c)
      let rest := s1.dropWhile (fun c => ¬ isSpc c)
      tok :: pySplitWsLim n rest

/-- Helper for `pySplitChar`: accumulates the current segment (reversed). -/
def pySplitCharAux (sep : Char) : Str → Str → List Str
  | [], cur => [cur.reverse]
  | c :: cs, cur =>
    if c = sep then cur.reverse :: pySplitCharAux sep cs []
    else pySplitCharAux sep cs (c :: cur)

/-- Models Python `s.split(sep)` for a one-character separator
(`''.split(sep) == ['']`). -/
def pySplitChar (sep : Char) (s : Str) : List Str := pySplitCharAux sep s []

/-- Models Python `s.split(sep, 1)` for a one-character separator,
returning the parts around the first occurrence, or `none` when the
separator does not occur. -/
def pySplitChar1 (sep : Char) : Str → Option (Str × Str)
  | [] => none
  | c :: cs =>
    if c = sep then some ([], cs)
    else (pySplitChar1 sep cs).map (fun p => (c :: p.1, p.2))

/-- Decimal digits of a numeral string, as a natural number. -/
def digitsToNat (ds : Str) : Nat :=
  ds.foldl (fun n c => n * 10 + (c.toNat - 48)) 0

/-- Models Python `float(s)` on ordinary decimal literals (optional
sign, digits with optional fraction, optional `e`/`E` exponent), giving
the exact rational value of the literal; `inf`/`nan`/underscored
literals are outside the model and yield `none`, as does any string
Python's `float` rejects with `ValueError`. -/
def pyFloat (s : Str) : Option ℚ :=
  let s := pyStrip s
  let signRest : ℚ × Str :=
    match s with
    | '+' :: r => (1, r)
    | '-' :: r => (-1, r)
    | r => (1, r)
  let sign := signRest.1
  let rest := signRest.2
  let intPart := rest.takeWhile Char.isDigit
  let rest1 := rest.dropWhile Char.isDigit
  let fracRest : Str × Str :=
    match rest1 with
    | '.' :: r => (r.takeWhile Char.isDigit, r.dropWhile Char.isDigit)
    | r => ([], r)
  let fracPart := fracRest.1
  let rest2 := if (match rest1 with | '.' :: _ => true | _ => false)
               then fracRest.2 else rest1
  if intPart.isEmpty ∧ fracPart.isEmpty then none
  else
    let mantissa : ℚ :=
      qmul sign (qadd (digitsToNat intPart : ℚ)
                      (mkRat (digitsToNat fracPart) (10 ^ fracPart.length)))
    match rest2 with
    | [] => some mantissa
    | c :: r =>
      if c = 'e' ∨ c = 'E' then
        let eneg : Bool × Str :=
          match r with
          | '+' :: t => (false, t)
          | '-' :: t => (true, t)
          | t => (false, t)
        let eds := eneg.2.takeWhile Char.isDigit
        if eds.isEmpty ∨ ¬ (eneg.2.dropWhile Char.isDigit).isEmpty then none
        else if eneg.1 then some (qmul mantissa (mkRat 1 (10 ^ digitsToNat eds)))
        else some (qmul mantissa ((10 ^ digitsToNat eds : ℕ) : ℚ))
      else none

/-- Models Python `int(s)`: optional sign followed by decimal digits
(after stripping whitespace); anything else raises `ValueError`,
modelled as `none` (underscored digit groups, which Python also
accepts, are outside the model). -/
def pyInt (s : Str) : Option ℤ :=
  let s := pyStrip s
  let signRest : ℤ × Str :=
    match s with
    | '+' :: r => (1, r)
    | '-' :: r => (-1, r)
    | r => (1, r)
  if signRest.2.isEmpty ∨ ¬ signRest.2.all Char.isDigit then none
  else some (signRest.1 * (digitsToNat signRest.2 : ℤ))

/-- Models Python `round(x)` on a float value: round half to even. -/
def pyRound (q : ℚ) : ℤ :=
  let f := ⌊q⌋
  let frac := qsub q (f : ℚ)
  if frac < mkRat 1 2 then f
  else if mkRat 1 2 < frac then f + 1
  else if f % 2 = 0 then f else f + 1

/-- Decimal rendering of a natural number. -/
def natToStr (n : Nat) : Str := Nat.toDigits 10 n

/-- Decimal rendering of an integer (used for `%d` substitution). -/
def intToStr (z : ℤ) : Str :=
  if z < 0 then '-' :: natToStr z.natAbs else natToStr z.natAbs

/-- Helper: largest power of `p` dividing `n`, with the cofactor;
`fuel`-structured so that it reduces in the kernel. -/
def stripPow (p : Nat) : Nat → Nat → Nat × Nat
  | 0, n => (0, n)
  | fuel + 1, n =>
    if n % p = 0 ∧ 2 ≤ p ∧ 0 < n then
      let er := stripPow p fuel (n / p)
      (er.1 + 1, er.2)
    else (0, n)

/-- Models Python `str(x)` on a float value whose decimal expansion is
finite, printed positionally: an integral value renders as `digits.0`,
otherwise the shortest exact decimal expansion is printed.  (CPython's
switch to scientific notation below `1e-4` / at `1e16` and the
rendering of values with no finite decimal expansion are outside the
model; no claim evaluated here reaches them.  The fallback arm renders
`num/den` so the function stays total.) -/
def pyStr (q : ℚ) : Str :=
  let sign : Str := if q < 0 then ['-'] else []
  let n := q.num.natAbs
  let d := q.den
  let a2 := stripPow 2 d d
  let a5 := stripPow 5 a2.2 a2.2
  if a5.2 = 1 then
    let k := max a2.1 a5.1
    if k = 0 then sign ++ natToStr n ++ str ".0"
    else
      let m := n * (2 ^ (k - a2.1) * 5 ^ (k - a5.1))
      let ip := m / 10 ^ k
      let fp := m % 10 ^ k
      let fpStr := natToStr fp
      sign ++ natToStr ip ++ '.' :: (List.replicate (k - fpStr.length) '0' ++ fpStr)
  else sign ++ natToStr n ++ '/' :: natToStr d

/-- Number of elements of `numpy.arange(start, stop, step)` in exact
arithmetic: `ceil((stop - start) / step)`, clamped at zero. -/
def arangeLen (start stop step : ℚ) : Nat :=
  (⌈qdiv (qsub stop start) step⌉).toNat

/-- Models `numpy.arange(start, stop, step)` in exact rational
arithmetic: the values `start + i * step` for `i` below `arangeLen`.
(The source converts the resulting numpy floats with `list(...)`;
float rounding at a step boundary is outside the exact model.) -/
def arange (start stop step : ℚ) : List ℚ :=
  (List.range (arangeLen start stop step)).map
    (fun (i : Nat) => qadd start (qmul (i : ℚ) step))

/-!
ConfigParser: embedding of `parse_conf` (src/__init__.py:1855-2247).
The file is handed in as a list of lines (without trailing newlines;
every string operation the source applies strips before use, so the
newline is immaterial).  `home` is the expansion of `~`, passed
explicitly instead of being read from the environment.
-/

/-- One `PSPACE:` block: per-parameter value lists (insertion-ordered
dict, as in the source) and the block's target accuracy (`None` until
an `ACC` line is seen). -/
structure PSpaceBlock where
  values : List (Str × List ℚ)
  acc : Option ℚ
deriving DecidableEq

/-- The configuration dictionary built by `parse_conf`
(src/__init__.py:1872-1878), with the same keys. -/
structure Conf where
  pnames : List Str
  MAXRUN : Option ℤ
  WORKDIR : Str
  WORKDIR_RAW : Str
  DATAFILE : Str
  DATAFILE_VALUES : List Str
  CMD_EXEC : Str
  CMD_EXEC_VALUES : List Str
  CMD_FILE : Str
  CMD_FILE_VALUES : List Str
  CMD_ACC : Str
  CMD_ACC_VALUES : List Str
  CMD_ACC_OP : Str
  CMD_CHECKFILE : Str
  CMD_CHECKFILE_VALUES : List Str
  pspaces : List PSpaceBlock
deriving DecidableEq

/-- The initial configuration dictionary (src/__init__.py:1872-1878). -/
def initConf : Conf :=
  { pnames := [], MAXRUN := none, WORKDIR := [], WORKDIR_RAW := []
    DATAFILE := [], DATAFILE_VALUES := []
    CMD_EXEC := [], CMD_EXEC_VALUES := []
    CMD_FILE := [], CMD_FILE_VALUES := []
    CMD_ACC := [], CMD_ACC_VALUES := [], CMD_ACC_OP := []
    CMD_CHECKFILE := [], CMD_CHECKFILE_VALUES := []
    pspaces := [] }

/-- Models `os.path.expanduser` for a path whose first character is a
bare `~` (the `~user` form, which looks up another user's home
directory, is outside the model). -/
def expanduser (home : Str) : Str → Str
  | '~' :: rest => home ++ rest
  | s => s

/-- Parser state: the configuration under construction, whether we are
inside a `PSPACE:` context, and the established block indentation. -/
structure PState where
  conf : Conf
  context : Bool
  indent : Option Nat
deriving DecidableEq

/-- Replace the last element of a list (used for updates of
`conf['pspaces'][-1]`). -/
def modifyLast {α : Type} (f : α → α) : List α → List α
  | [] => []
  | [b] => [f b]
  | b :: bs => b :: modifyLast f bs

/-- Fold of the `DECLARE` loop (src/__init__.py:1913-1923): add each
name, rejecting one that was already declared. -/
def addPnames : List Str → List Str → Except String (List Str)
  | acc, [] => .ok acc
  | acc, p :: ps =>
    if p ∈ acc then .error "parameter already declared"
    else addPnames (acc ++ [p]) ps

/-- Range-token expansion of a `PARAM` line (src/__init__.py:2112-2132).
A token with no colon is a literal float; one colon is `start:stop`
(unit step, or `numpy.arange(stop)` when `start` is empty); two colons
are `start:stop:step` (empty start means `0`).  A failing `float`
conversion is an uncaught `ValueError`; handing `None` to
`numpy.arange` as stop or step, `numpy.arange(None)`, and a zero step
raise in numpy; three or more colons hit `conf_syntax_error`.  All are
modelled as `Except.error`. -/
def parseRangeToken (tok : Str) : Except String (List ℚ) :=
  if tok.count ':' = 0 then
    match pyFloat tok with
    | some v => .ok [v]
    | none => .error "ValueError: could not convert string to float"
  else if tok.count ':' = 1 then
    match pySplitChar ':' tok with
    | [s1, s2] =>
      match (if s1.isEmpty then .ok none else
              match pyFloat s1 with
              | some v => .ok (some v)
              | none => .error "ValueError: could not convert string to float" :
              Except String (Option ℚ)) with
      | .error e => .error e
      | .ok start =>
        match (if s2.isEmpty then .ok none else
                match pyFloat s2 with
                | some v => .ok (some v)
                | none => .error "ValueError: could not convert string to float" :
                Except String (Option ℚ)) with
        | .error e => .error e
        | .ok stop =>
          match start, stop with
          | none, some e => .ok (arange 0 e 1)
          | some s, some e => .ok (arange s e 1)
          | _, none => .error "TypeError: numpy.arange with None stop"
    | _ => .error "unreachable: one colon splits into two parts"
  else if tok.count ':' = 2 then
    match pySplitChar ':' tok with
    | [s1, s2, s3] =>
      match (if s1.isEmpty then .ok 0 else
              match pyFloat s1 with
              | some v => .ok v
              | none => .error "ValueError: could not convert string to float" :
              Except String ℚ) with
      | .error e => .error e
      | .ok start =>
        match (if s2.isEmpty then .ok none else
                match pyFloat s2 with
                | some v => .ok (some v)
                | none => .error "ValueError: could not convert string to float" :
                Except String (Option ℚ)) with
        | .error e => .error e
        | .ok stop =>
          match (if s3.isEmpty then .ok none else
                  match pyFloat s3 with
                  | some v => .ok (some v)
                  | none => .error "ValueError: could not convert string to float" :
                  Except String (Option ℚ)) with
          | .error e => .error e
          | .ok step =>
            match stop, step with
            | some e, some st =>
              if st = 0 then .error "ZeroDivisionError: numpy.arange with zero step"
              else .ok (arange start e st)
            | _, _ => .error "TypeError: numpy.arange with None stop or step"
    | _ => .error "unreachable: two colons split into three parts"
  else .error "syntax error"

/-- Concatenating fold of the range tokens of one `PARAM` line
(`values += ...` across tokens, src/__init__.py:2111-2132). -/
def parseRanges : List Str → Except String (List ℚ)
  | [] => .ok []
  | tok :: toks =>
    if tok.isEmpty then parseRanges toks
    else
      match parseRangeToken tok with
      | .error e => .error e
      | .ok vs =>
        match parseRanges toks with
        | .error e => .error e
        | .ok rest => .ok (vs ++ rest)

/-- Conversion of an `ACC` argument (src/__init__.py:2144-2165): the
`try` block unpacks exactly two words and converts the value, mapping a
`%`, `ppm` or `ppb` suffix to a fraction; any exception inside becomes
`conf_syntax_error`, so the result is `none` on failure. -/
def parseAccToken (line : Str) : Option ℚ :=
  match pySplitWs (pyStrip line) with
  | [_, acc] =>
    if (str "%").isSuffixOf acc then
      (pyFloat acc.dropLast).map (fun v => qdiv v 100)
    else if (str "ppm").isSuffixOf acc then
      (pyFloat (acc.take (acc.length - 3))).map (fun v => qdiv v 1000000)
    else if (str "ppb").isSuffixOf acc then
      (pyFloat (acc.take (acc.length - 3))).map (fun v => qdiv v 1000000000)
    else pyFloat acc
  | _ => none

/-- Processing of a line in the `PSPACE` context
(src/__init__.py:2105-2185).  Note: the source strips comments only in
the top-level context; here the raw line is dispatched on its first
word, and a line matching neither `PARAM` nor `ACC` is silently
ignored (the `elif` chain has no final `else`). -/
def pspaceLine (st : PState) (line : Str) : Except String PState :=
  let fw := (pySplitWsLim 1 (pyStrip line)).headD []
  if fw = str "PARAM" then
    match pySplitWsLim 2 (pyStrip (pyReplace ',' ' ' line)) with
    | [_, name, ranges] =>
      match parseRanges (pySplitWs ranges) with
      | .error e => .error e
      | .ok values =>
        match st.conf.pspaces.getLast? with
        | none => .error "unreachable: PSPACE context without block"
        | some blk =>
          if name ∈ blk.values.map Prod.fst then
            .error "values for parameter already specified in this context"
          else
            let ps := modifyLast
              (fun b => { b with values := b.values ++ [(name, values)] })
              st.conf.pspaces
            .ok { st with conf := { st.conf with pspaces := ps } }
    | _ => .error "ValueError: PARAM line does not unpack"
  else if fw = str "ACC" then
    match parseAccToken line with
    | none => .error "syntax error"
    | some acc =>
      match st.conf.pspaces.getLast? with
      | none => .error "unreachable: PSPACE context without block"
      | some blk =>
        if blk.acc.isSome then .error "ACC already specified in this context"
        else
          let ps := modifyLast (fun b => { b with acc := some acc }) st.conf.pspaces
          .ok { st with conf := { st.conf with pspaces := ps } }
  else .ok st

/-- Processing of a top-level line (src/__init__.py:1903-2101): comment
lines are skipped, inline `#...` suffixes are cut, and the line is
dispatched on its first word. -/
def topLine (home : Str) (st : PState) (line : Str) : Except String PState :=
  if (match pyStrip line with | '#' :: _ => true | _ => false) then .ok st
  else
    let line := line.takeWhile (fun c => c ≠ '#')
    let fw := (pySplitWsLim 1 (pyStrip line)).headD []
    if fw = str "DECLARE" then
      match addPnames st.conf.pnames
              ((pySplitWs (pyStrip (pyReplace ',' ' ' line))).drop 1) with
      | .error e => .error e
      | .ok ps => .ok { st with conf := { st.conf with pnames := ps } }
    else if fw = str "MAXRUN" then
      match pySplitWs (pyStrip line) with
      | [_, numTok] =>
        match pyInt numTok with
        | none => .error "syntax error"
        | some n =>
          if n < 1 then .error "MAXRUN must be positive integer"
          else if st.conf.MAXRUN.isSome then .error "MAXRUN already specified"
          else .ok { st with conf := { st.conf with MAXRUN := some n } }
      | _ => .error "syntax error"
    else if fw = str "WORKDIR" then
      match pySplitWsLim 1 (pyStrip line) with
      | [_, wd] =>
        if ¬ st.conf.WORKDIR.isEmpty then .error "WORKDIR already specified"
        else .ok { st with conf := { st.conf with
                     WORKDIR := expanduser home wd, WORKDIR_RAW := wd } }
      | _ => .error "ValueError: WORKDIR line does not unpack"
    else if fw = str "DATAFILE" then
      match pySplitWsLim 1 (pyStrip line) with
      | [_, df] =>
        if ¬ st.conf.DATAFILE.isEmpty then .error "DATAFILE already specified"
        else .ok { st with conf := { st.conf with DATAFILE := df } }
      | _ => .error "ValueError: DATAFILE line does not unpack"
    else if fw = str "DATAFILE_VALUES" then
      match pySplitWsLim 1 (pyStrip (pyReplace ',' ' ' line)) with
      | [_, vs] =>
        if ¬ st.conf.DATAFILE_VALUES.isEmpty then .error "DATAFILE_VALUES already specified"
        else .ok { st with conf := { st.conf with DATAFILE_VALUES := pySplitWs vs } }
      | _ => .error "ValueError: DATAFILE_VALUES line does not unpack"
    else if fw = str "CMD_EXEC" then
      match pySplitWsLim 1 (pyStrip line) with
      | [_, cmd] =>
        if ¬ st.conf.CMD_EXEC.isEmpty then .error "CMD_EXEC already specified"
        else .ok { st with conf := { st.conf with CMD_EXEC := cmd } }
      | _ => .error "ValueError: CMD_EXEC line does not unpack"
    else if fw = str "CMD_EXEC_VALUES" then
      match pySplitWsLim 1 (pyStrip (pyReplace ',' ' ' line)) with
      | [_, vs] =>
        if ¬ st.conf.CMD_EXEC_VALUES.isEmpty then .error "CMD_EXEC_VALUES already specified"
        else .ok { st with conf := { st.conf with CMD_EXEC_VALUES := pySplitWs vs } }
      | _ => .error "ValueError: CMD_EXEC_VALUES line does not unpack"
    else if fw = str "CMD_FILE" then
      match pySplitWsLim 1 (pyStrip line) with
      | [_, cmd] =>
        if ¬ st.conf.CMD_FILE.isEmpty then .error "CMD_FILE already specified"
        else .ok { st with conf := { st.conf with CMD_FILE := cmd } }
      | _ => .error "ValueError: CMD_FILE line does not unpack"
    else if fw = str "CMD_FILE_VALUES" then
      match pySplitWsLim 1 (pyStrip (pyReplace ',' ' ' line)) with
      | [_, vs] =>
        if ¬ st.conf.CMD_FILE_VALUES.isEmpty then .error "CMD_FILE_VALUES already specified"
        else .ok { st with conf := { st.conf with CMD_FILE_VALUES := pySplitWs vs } }
      | _ => .error "ValueError: CMD_FILE_VALUES line does not unpack"
    else if fw = str "CMD_CHECKFILE" then
      match pySplitWsLim 1 (pyStrip line) with
      | [_, cmd] =>
        if ¬ st.conf.CMD_CHECKFILE.isEmpty then .error "CMD_CHECKFILE already specified"
        else .ok { st with conf := { st.conf with CMD_CHECKFILE := cmd } }
      | _ => .error "ValueError: CMD_CHECKFILE line does not unpack"
    else if fw = str "CMD_CHECKFILE_VALUES" then
      match pySplitWsLim 1 (pyStrip (pyReplace ',' ' ' line)) with
      | [_, vs] =>
        if ¬ st.conf.CMD_CHECKFILE_VALUES.isEmpty then
          .error "CMD_CHECKFILE_VALUES already specified"
        else .ok { st with conf := { st.conf with CMD_CHECKFILE_VALUES := pySplitWs vs } }
      | _ => .error "ValueError: CMD_CHECKFILE_VALUES line does not unpack"
    else if fw = str "CMD_ACC" then
      match pySplitWsLim 1 (pyStrip line) with
      | [_, cmd] =>
        if ¬ st.conf.CMD_ACC.isEmpty then .error "CMD_ACC already specified"
        else .ok { st with conf := { st.conf with CMD_ACC := cmd } }
      | _ => .error "ValueError: CMD_ACC line does not unpack"
    else if fw = str "CMD_ACC_VALUES" then
      match pySplitWsLim 1 (pyStrip (pyReplace ',' ' ' line)) with
      | [_, vs] =>
        if ¬ st.conf.CMD_ACC_VALUES.isEmpty then .error "CMD_ACC_VALUES already specified"
        else .ok { st with conf := { st.conf with CMD_ACC_VALUES := pySplitWs vs } }
      | _ => .error "ValueError: CMD_ACC_VALUES line does not unpack"
    else if fw = str "CMD_ACC_OP" then
      match pySplitWsLim 1 (pyStrip line) with
      | [_, op] =>
        if ¬ st.conf.CMD_ACC_OP.isEmpty then .error "CMD_ACC_OP already specified"
        else if ¬ (op = str "<" ∨ op = str ">" ∨ op = str "<=" ∨ op = str ">=" ∨
                   op = str "==" ∨ op = str "!=") then
          .error "unknown comparison operator"
        else .ok { st with conf := { st.conf with CMD_ACC_OP := op } }
      | _ => .error "ValueError: CMD_ACC_OP line does not unpack"
    else if pyStrip line = str "PSPACE:" then
      let c := { st.conf with pspaces := st.conf.pspaces ++ [⟨[], none⟩] }
      .ok { st with context := true, conf := c }
    else if ¬ (pyStrip line).isEmpty then .error "syntax error"
    else .ok st

/-- Models Python `line[0].isspace()` (on a nonempty line). -/
def headSpc : Str → Bool
  | c :: _ => isSpc c
  | [] => false

/-- Equality of `Except` values is decidable when it is for both
components (used to evaluate the embedding on concrete inputs). -/
instance exceptDecEq {ε α : Type} [DecidableEq ε] [DecidableEq α] :
    DecidableEq (Except ε α) := fun x y =>
  match x, y with
  | .ok a, .ok b =>
    if h : a = b then isTrue (by rw [h])
    else isFalse (fun hc => h (Except.ok.inj hc))
  | .error a, .error b =>
    if h : a = b then isTrue (by rw [h])
    else isFalse (fun hc => h (Except.error.inj hc))
  | .ok _, .error _ => isFalse (fun hc => Except.noConfusion hc)
  | .error _, .ok _ => isFalse (fun hc => Except.noConfusion hc)

/-- Single-line step of the `parse_conf` reading loop
(src/__init__.py:1882-1909): skip blank lines, leave the `PSPACE`
context on a non-indented line, enforce the block indentation
(measured on the raw line), then process the line in the current
context. -/
def procLine (home : Str) (st : PState) (line : Str) : Except String PState :=
  if (pyStrip line).isEmpty then .ok st
  else
    let st :=
      if st.context ∧ ¬ headSpc line then
        { st with context := false, indent := none }
      else st
    if st.context then
      match st.indent with
      | none => pspaceLine { st with indent := some (indentOf line) } line
      | some i =>
        if i ≠ indentOf line then .error "unexpected indent"
        else pspaceLine st line
    else topLine home st line

/-- The reading loop of `parse_conf` over all lines. -/
def parseLines (home : Str) : PState → List Str → Except String PState
  | st, [] => .ok st
  | st, l :: ls =>
    match procLine home st l with
    | .error e => .error e
    | .ok st' => parseLines home st' ls

/-- The post-parse validation of `parse_conf`
(src/__init__.py:2190-2244): undeclared parameters, missing `ACC`,
parameters missing from a block, missing templates; then the `WORKDIR`
and `CMD_ACC_OP` defaults. -/
def postChecks (home : Str) (conf : Conf) : Except String Conf :=
  if conf.pspaces.any (fun b => b.values.any (fun kv => ¬ kv.1 ∈ conf.pnames)) then
    .error "parameter undecleared"
  else if conf.pspaces.any (fun b => ¬ b.acc.isSome) then
    .error "missing ACC in PSPACE context"
  else if conf.pspaces.any (fun b => conf.pnames.any
            (fun p => ¬ p ∈ b.values.map Prod.fst)) then
    .error "parameter missing in PSPACE context"
  else if conf.CMD_ACC.isEmpty then .error "missing CMD_ACC specification"
  else if conf.CMD_EXEC.isEmpty then .error "missing CMD_EXEC specification"
  else if conf.CMD_FILE.isEmpty then .error "missing CMD_FILE specification"
  else if conf.CMD_CHECKFILE.isEmpty then .error "missing CMD_CHECKFILE specification"
  else if conf.DATAFILE.isEmpty then .error "missing DATAFILE specification"
  else
    let conf := if conf.WORKDIR.isEmpty then
                  { conf with WORKDIR := expanduser home (str "~") } else conf
    let conf := if conf.CMD_ACC_OP.isEmpty then
                  { conf with CMD_ACC_OP := str "<=" } else conf
    .ok conf

/-- Embedding of `parse_conf` (src/__init__.py:1855-2247) over the
file's lines. -/
def parse_conf (home : Str) (lines : List Str) : Except String Conf :=
  match parseLines home ⟨initConf, false, none⟩ lines with
  | .error e => .error e
  | .ok st => postChecks home st.conf

/-!
SpaceExpander: embedding of `compare` (src/__init__.py:2340-2357),
`name_datafile` (1799-1806) and `compute_psets` (1756-1796).
-/

/-- Embedding of `compare` (src/__init__.py:2340-2357): compare two
values with an operator given as a string; an unknown operator is
fatal. -/
def compare (val1 val2 : ℚ) (op : Str) : Except String Bool :=
  if op = str "<" then .ok (decide (val1 < val2))
  else if op = str ">" then .ok (decide (val1 > val2))
  else if op = str "<=" then .ok (decide (val1 ≤ val2))
  else if op = str ">=" then .ok (decide (val1 ≥ val2))
  else if op = str "==" then .ok (decide (val1 = val2))
  else if op = str "!=" then .ok (decide (val1 ≠ val2))
  else .error "unknown operator"

/-- Arithmetic expressions handed to the evaluator.  Modelled from the
spec: the source evaluates the `*_VALUES` expression strings with
Python's general `eval`, whose full semantics cannot be embedded; §2
and §9 of the spec describe the evaluator as a restricted interpreter
over numeric literals, the four arithmetic operators and lookups of
the current parameter bindings, which is what is embedded here. -/
inductive AExpr : Type
  | num (v : ℚ)
  | var (name : Str)
  | add (a b : AExpr)
  | sub (a b : AExpr)
  | mul (a b : AExpr)
  | div (a b : AExpr)
deriving DecidableEq

/-- Modelled from the spec: the ArithmeticEvaluator.  Evaluates an
expression against the parameter bindings; an unbound variable or a
division by zero is a hard error (as `NameError`/`ZeroDivisionError`
would be under the source's `eval(expr, pset.copy())`). -/
def aeval (env : List (Str × ℚ)) : AExpr → Except String ℚ
  | .num v => .ok v
  | .var n =>
    match env.lookup n with
    | some v => .ok v
    | none => .error "NameError: name is not defined"
  | .add a b =>
    match aeval env a, aeval env b with
    | .ok va, .ok vb => .ok (qadd va vb)
    | .error e, _ => .error e
    | _, .error e => .error e
  | .sub a b =>
    match aeval env a, aeval env b with
    | .ok va, .ok vb => .ok (qsub va vb)
    | .error e, _ => .error e
    | _, .error e => .error e
  | .mul a b =>
    match aeval env a, aeval env b with
    | .ok va, .ok vb => .ok (qmul va vb)
    | .error e, _ => .error e
    | _, .error e => .error e
  | .div a b =>
    match aeval env a, aeval env b with
    | .ok va, .ok vb =>
      if vb = 0 then .error "ZeroDivisionError: division by zero"
      else .ok (qdiv va vb)
    | .error e, _ => .error e
    | _, .error e => .error e

/-- One parameter-space block as consumed by the expander: the
per-parameter value lists and the block's target accuracy (present,
since `parse_conf` validated it). -/
structure ExpBlock where
  values : List (Str × List ℚ)
  acc : ℚ
deriving DecidableEq

/-- The configuration fields consumed by the expansion engine.
`parse_conf` stores the `DATAFILE_VALUES` expressions as raw strings
which the source hands to Python `eval`; the expander embedding takes
them already parsed into the evaluator's syntax (`AExpr`).  `home` is
the process environment consulted by `os.path.expanduser`. -/
structure ExpConf where
  pnames : List Str
  pspaces : List ExpBlock
  DATAFILE : Str
  DATAFILE_VALUES : List AExpr
  WORKDIR : Str
  CMD_ACC_OP : Str
  home : Str
deriving DecidableEq

/-- A `ParameterSet`: the dict built per combination in `compute_psets`
(src/__init__.py:1768-1785).  The source stores the derived entries
under the keys `ACC`, `FILE`, `RELPATH`, `ABSPATH` in the same dict as
the parameter bindings; they are separate fields here (no configuration
in the claims declares a parameter with one of those names). -/
structure Pset where
  values : List (Str × ℚ)
  ACC : ℚ
  FILE : Str
  RELPATH : Str
  ABSPATH : Str
deriving DecidableEq

/-- Models the `%` formatting operator for the `%d` conversions used in
`DATAFILE` templates: each `%d` is replaced by the next value.  (A
count mismatch between the `%d`s and the value tuple is a Python
`TypeError`; expansion always renders the template with its declared
value list, so the mismatch is not modelled.) -/
def pyFormat : Str → List ℤ → Str
  | [], _ => []
  | '%' :: 'd' :: rest, v :: vs => intToStr v ++ pyFormat rest vs
  | c :: rest, vs => c :: pyFormat rest vs

/-- Evaluate-and-round fold over the `DATAFILE_VALUES` expressions
(`round(eval(expr, pset.copy()))`, src/__init__.py:1802-1805). -/
def evalRoundAll (env : List (Str × ℚ)) : List AExpr → Except String (List ℤ)
  | [] => .ok []
  | e :: es =>
    match aeval env e with
    | .error err => .error err
    | .ok v =>
      match evalRoundAll env es with
      | .error err => .error err
      | .ok rest => .ok (pyRound v :: rest)

/-- Embedding of `name_datafile` (src/__init__.py:1799-1806): evaluate
each `DATAFILE_VALUES` expression against the parameter set, round each
result to the nearest integer, substitute positionally into the
`DATAFILE` template, and append the fixed `.h5` suffix. -/
def name_datafile (conf : ExpConf) (env : List (Str × ℚ)) : Except String Str :=
  match evalRoundAll env conf.DATAFILE_VALUES with
  | .error e => .error e
  | .ok vals => .ok (pyFormat conf.DATAFILE vals ++ str ".h5")

/-- Models `itertools.product` over the per-parameter value lists (in
declared-parameter order, rightmost factor varying fastest). -/
def cartProd : List (List ℚ) → List (List ℚ)
  | [] => [[]]
  | vs :: rest => vs.flatMap (fun v => (cartProd rest).map (fun t => v :: t))

/-- Models `os.path.join(workdir, datafile)` for a relative datafile
(the source then applies `os.path.relpath` / `os.path.abspath`, whose
normalisation against the process working directory is not modelled;
the joined path is recorded for both). -/
def joinPath (a b : Str) : Str := a ++ '/' :: b

/-- Python dict assignment on an association list: replace the binding
in place, or append when the key is absent. -/
def assocSet {α : Type} : List (Str × α) → Str → α → List (Str × α)
  | [], k, v => [(k, v)]
  | (k', v') :: rest, k, v =>
    if k' = k then (k, v) :: rest else (k', v') :: assocSet rest k v

/-- The collision step of `compute_psets` (src/__init__.py:1787-1793):
if the datafile key is already present, compare the existing entry's
accuracy target against the new one's with the configured operator and
keep the existing entry when the comparison holds (`continue`),
otherwise store the new entry. -/
def insertPset (op : Str) (psets : List (Str × Pset)) (key : Str) (pset : Pset) :
    Except String (List (Str × Pset)) :=
  match psets.lookup key with
  | some old =>
    match compare old.ACC pset.ACC op with
    | .error e => .error e
    | .ok b => if b then .ok psets else .ok (assocSet psets key pset)
  | none => .ok (assocSet psets key pset)

/-- Construction of one `ParameterSet` and its key from one tuple of
the cartesian product (src/__init__.py:1768-1785): bind the parameters,
derive the datafile name, copy the block accuracy, store the raw name
under `FILE`, expand `~`, and record the derived paths. -/
def pcombToPset (conf : ExpConf) (acc : ℚ) (pcomb : List ℚ) :
    Except String (Str × Pset) :=
  let env := conf.pnames.zip pcomb
  match name_datafile conf env with
  | .error e => .error e
  | .ok df0 =>
    let df := expanduser conf.home df0
    let paths :=
      match df with
      | '/' :: _ => (df, df)
      | _ => (joinPath conf.WORKDIR df, joinPath conf.WORKDIR df)
    .ok (df, { values := env, ACC := acc, FILE := df0,
               RELPATH := paths.1, ABSPATH := paths.2 })

/-- The inner loop of `compute_psets` over the cartesian product of one
block's value lists. -/
def processCombs (conf : ExpConf) (acc : ℚ) :
    List (Str × Pset) → List (List ℚ) → Except String (List (Str × Pset))
  | psets, [] => .ok psets
  | psets, comb :: rest =>
    match pcombToPset conf acc comb with
    | .error e => .error e
    | .ok kp =>
      match insertPset conf.CMD_ACC_OP psets kp.1 kp.2 with
      | .error e => .error e
      | .ok psets' => processCombs conf acc psets' rest

/-- The outer loop of `compute_psets` over the parameter-space blocks
(in block order).  The per-parameter value lists are taken in
declared-parameter order (`pspace['values'][key] for key in pnames`;
post-parse validation guarantees every name is present, so the
`KeyError` path is not modelled). -/
def processBlocks (conf : ExpConf) :
    List (Str × Pset) → List ExpBlock → Except String (List (Str × Pset))
  | psets, [] => .ok psets
  | psets, blk :: blks =>
    match processCombs conf blk.acc psets
            (cartProd (conf.pnames.map (fun k => (blk.values.lookup k).getD []))) with
    | .error e => .error e
    | .ok psets' => processBlocks conf psets' blks

/-- Embedding of `compute_psets` (src/__init__.py:1756-1796): the full
mapping from datafile key to `ParameterSet`, with cross-block
collisions resolved by `insertPset`. -/
def compute_psets (conf : ExpConf) : Except String (List (Str × Pset)) :=
  processBlocks conf [] conf.pspaces

/-!
SubspaceFilter: embedding of `filter_psets` (src/__init__.py:1486-1579).
-/

/-- A parsed `--param` constraint: an exact value, or a closed interval
with optionally absent bounds (the source's `float` / `(val1, val2)`
dict values). -/
inductive FilterConstraint : Type
  | exact (v : ℚ)
  | interval (lo hi : Option ℚ)
deriving DecidableEq

/-- One iteration of the `--param` parsing loop
(src/__init__.py:1495-1540): strip the pair, skip it when empty, split
at `=` (exactly two parts or `ValueError`), reject a duplicate or
undeclared name, then parse an interval (at most one colon) or an
exact value. -/
def parsePair (pnames : List Str) (acc : List (Str × FilterConstraint)) (pair : Str) :
    Except String (List (Str × FilterConstraint)) :=
  let pair := pyStrip pair
  if pair.isEmpty then .ok acc
  else
    match pySplitChar '=' pair with
    | [k, v] =>
      let key := pyStrip k
      let value := pyStrip v
      if key ∈ acc.map Prod.fst then
        .error "double definition of parameter"
      else if ¬ pnames.isEmpty ∧ ¬ key ∈ pnames then
        .error "undecleared parameter"
      else if value.count ':' ≠ 0 then
        if 1 < value.count ':' then .error "bad interval definition"
        else
          match pySplitChar ':' value with
          | [v1, v2] =>
            let v1 := pyStrip v1
            let v2 := pyStrip v2
            match (if v1.isEmpty then .ok none else
                    match pyFloat v1 with
                    | some x => .ok (some x)
                    | none => .error "bad value" : Except String (Option ℚ)) with
            | .error e => .error e
            | .ok lo =>
              match (if v2.isEmpty then .ok none else
                      match pyFloat v2 with
                      | some x => .ok (some x)
                      | none => .error "bad value" : Except String (Option ℚ)) with
              | .error e => .error e
              | .ok hi => .ok (acc ++ [(key, .interval lo hi)])
          | _ => .error "unreachable: one colon splits into two parts"
      else
        match pyFloat value with
        | some x => .ok (acc ++ [(key, .exact x)])
        | none => .error "bad value"
    | _ => .error "bad NAME=VALUE pair"

/-- Fold of `parsePair` over the comma-separated pairs. -/
def parsePairs (pnames : List Str) :
    List (Str × FilterConstraint) → List Str →
    Except String (List (Str × FilterConstraint))
  | acc, [] => .ok acc
  | acc, p :: ps =>
    match parsePair pnames acc p with
    | .error e => .error e
    | .ok acc' => parsePairs pnames acc' ps

/-- Parsing of the whole `--param` option string
(src/__init__.py:1493-1540). -/
def parseFilterParams (opts_param : Str) (pnames : List Str) :
    Except String (List (Str × FilterConstraint)) :=
  parsePairs pnames [] (pySplitChar ',' (pyStrip opts_param))

/-- Value of a parameter in a `ParameterSet` (Python `pset[pname]`).
The constraint names are validated against the declared parameters and
every expanded set binds all of them, so the `KeyError` path for a
missing key is not modelled (a default of `0` is returned). -/
def psetVal (p : Pset) (n : Str) : ℚ := (p.values.lookup n).getD 0

/-- The skip loop of `filter_psets` (src/__init__.py:1551-1570),
translated branch for branch: `.ok true` when a constraint rejects the
parameter set (`skip = True; break`), `.ok false` when every
constraint passes.  An exact constraint compares the `str()`
renderings of the two float values.  An interval with an absent lower
bound whose upper bound is violated falls through to the fourth branch
(src/__init__.py:1561), which evaluates `pset[pname] >= None` — a
Python 3 `TypeError` aborting the call; an absent upper bound with a
violated lower bound instead short-circuits on the first conjunct of
that branch (`pset[pname] >= val1` is `False` between floats) and
skips cleanly. -/
def psetSkip (p : Pset) : List (Str × FilterConstraint) → Except String Bool
  | [] => .ok false
  | (pname, c) :: rest =>
    match c with
    | .interval lo hi =>
      match lo, hi with
      | none, none => psetSkip p rest
      | none, some v2 =>
        if psetVal p pname ≤ v2 then psetSkip p rest
        else .error "TypeError: comparison of float and NoneType is not supported"
      | some v1, none =>
        if psetVal p pname ≥ v1 then psetSkip p rest else .ok true
      | some v1, some v2 =>
        if psetVal p pname ≥ v1 ∧ psetVal p pname ≤ v2 then psetSkip p rest
        else .ok true
    | .exact v =>
      if pyStr (psetVal p pname) = pyStr v then psetSkip p rest else .ok true

/-- The outer loop of `filter_psets` (src/__init__.py:1546-1576) over
the parameter sets, in input order: a set whose skip loop returns
`False` is appended to the result (`new_psets[key] = pset`); a
`TypeError` raised inside the skip loop propagates and aborts the
whole call, discarding the partial result. -/
def filterLoop (filterparams : List (Str × FilterConstraint)) :
    List (Str × Pset) → List (Str × Pset) → Except String (List (Str × Pset))
  | acc, [] => .ok acc
  | acc, (key, pset) :: rest =>
    match psetSkip pset filterparams with
    | .error e => .error e
    | .ok true => filterLoop filterparams acc rest
    | .ok false => filterLoop filterparams (acc ++ [(key, pset)]) rest

/-- Embedding of `filter_psets` (src/__init__.py:1486-1579): parse the
constraint string, then run the filtering loop over the parameter
sets. -/
def filter_psets (psets : List (Str × Pset)) (opts_param : Str) (pnames : List Str) :
    Except String (List (Str × Pset)) :=
  match parseFilterParams opts_param pnames with
  | .error e => .error e
  | .ok filterparams => filterLoop filterparams [] psets

/-!
QueueSnapshot: embedding of the parsing part of `get_qdata`
(src/__init__.py:1667-1729).
-/

/-- A typed attribute value of a job record. -/
inductive AttrVal : Type
  | s (v : Str)
  | i (v : ℤ)
  | b (v : Bool)
deriving DecidableEq

/-- The declared type of a known attribute. -/
inductive AttrType : Type
  | str
  | int
  | bool
deriving DecidableEq

/-- The fixed attribute-type table `job_keys`
(src/__init__.py:1675-1694). -/
def job_keys : List (Str × AttrType) :=
  [(str "Job_Name", .str), (str "Job_Owner", .str),
   (str "resources_used.cput", .str), (str "resources_used.mem", .str),
   (str "resources_used.vmem", .str), (str "resources_used.walltime", .str),
   (str "job_state", .str), (str "queue", .str), (str "server", .str),
   (str "Checkpoint", .str),
   (str "ctime", .str), (str "mtime", .str), (str "qtime", .str), (str "etime", .str),
   (str "Error_Path", .str), (str "exec_host", .str), (str "Hold_Types", .str),
   (str "Join_Path", .str), (str "Keep_Files", .str), (str "Mail_Points", .str),
   (str "Mail_Users", .str), (str "Output_Path", .str), (str "Priority", .int),
   (str "Rerunable", .bool),
   (str "Resource_List.cput", .str), (str "Resource_List.nodect", .str),
   (str "Resource_List.nodes", .str), (str "Resource_List.host", .str),
   (str "Resource_List.mem", .str), (str "Resource_List.walltime", .str),
   (str "Resource_List.ncpus", .int),
   (str "session_id", .int), (str "submit_args", .str), (str "start_time", .str),
   (str "start_count", .int), (str "fault_tolerant", .bool),
   (str "submit_host", .str), (str "init_work_dir", .str),
   (str "Walltime.Remaining", .int),
   (str "x", .str), (str "Shell_Path_List", .str), (str "Variable_List", .str),
   (str "interactive", .str), (str "exit_status", .int)]

/-- The default value of an attribute type (Python `keytype()`:
`str() == ''`, `int() == 0`, `bool() == False`). -/
def typeDefault : AttrType → AttrVal
  | .str => .s []
  | .int => .i 0
  | .bool => .b false

/-- Python `keytype(value)` for a known attribute: `str` keeps the
text, `int` parses it (`ValueError` on failure), `bool` of a string is
its non-emptiness. -/
def typeConv : AttrType → Str → Except String AttrVal
  | .str, v => .ok (.s v)
  | .int, v =>
    match pyInt v with
    | some n => .ok (.i n)
    | none => .error "ValueError: invalid literal for int"
  | .bool, v => .ok (.b (! v.isEmpty))

/-- The freshly initialised record of a new job: every known attribute
bound to its type's default (src/__init__.py:1711-1713). -/
def initRecord : List (Str × AttrVal) :=
  job_keys.map (fun kt => (kt.1, typeDefault kt.2))

/-- Update of one attribute on one job's record
(`qdata[job_id][key] = v`). -/
def recordSet (qdata : List (Str × List (Str × AttrVal))) (jid k : Str) (v : AttrVal) :
    List (Str × List (Str × AttrVal)) :=
  qdata.map (fun r => if r.1 = jid then (r.1, assocSet r.2 k v) else r)

/-- The parsing loop of `get_qdata` (src/__init__.py:1697-1726): skip
blank lines; a line starting with `Job Id:` opens a new record (job id
is the last word) initialised from the type table; any other line
before the first marker is a hard error; an attribute line matching a
known key is converted by its declared type, and an unknown key is
stored verbatim (after a warning on stderr, which is not modelled). -/
def qdataLoop :
    List (Str × List (Str × AttrVal)) → Str → List Str →
    Except String (List (Str × List (Str × AttrVal)))
  | qdata, _, [] => .ok qdata
  | qdata, job_id, line :: rest =>
    if (pyStrip line).isEmpty then qdataLoop qdata job_id rest
    else
      let line := pyStrip line
      let words := pySplitWs line
      if (str "Job Id:").isPrefixOf line then
        let jid := words.getLast?.getD []
        qdataLoop (assocSet qdata jid initRecord) jid rest
      else
        if job_id.isEmpty then .error "job_id is empty"
        else
          match job_keys.find? (fun kt => words.headD [] = kt.1) with
          | some kt =>
            match pySplitChar1 '=' line with
            | none => .error "IndexError: attribute line has no value"
            | some p =>
              match typeConv kt.2 (pyStrip p.2) with
              | .error e => .error e
              | .ok v => qdataLoop (recordSet qdata job_id kt.1 v) job_id rest
          | none =>
            match pySplitChar1 '=' line with
            | none => .error "ValueError: line does not unpack"
            | some p => qdataLoop (recordSet qdata job_id p.1 (.s p.2)) job_id rest

/-- Embedding of the parsing part of `get_qdata`
(src/__init__.py:1667-1729).  The `qstat -f1` invocation is external
I/O; its captured output is handed in as lines (the source strips the
whole output and applies `splitlines`). -/
def get_qdata (lines : List Str) : Except String (List (Str × List (Str × AttrVal))) :=
  qdataLoop [] [] lines

/-!
Shared helper lemmas.
-/

theorem assocSet_lookup_self {α : Type} (l : List (Str × α)) (k : Str) (v : α) :
    (assocSet l k v).lookup k = some v := by
  induction l with
  | nil => simp [assocSet]
  | cons hd tl ih =>
    cases hd with
    | mk k' v' =>
      by_cases h : k' = k
      · subst h
        simp [assocSet]
      · rw [assocSet, if_neg h, List.lookup_cons, beq_false_of_ne (Ne.symm h)]
        exact ih

theorem mem_assocSet {α : Type} {l : List (Str × α)} {k : Str} {v : α} {kp : Str × α}
    (h : kp ∈ assocSet l k v) : kp = (k, v) ∨ kp ∈ l := by
  induction l with
  | nil =>
    simp only [assocSet, List.mem_singleton] at h
    exact Or.inl h
  | cons hd tl ih =>
    cases hd with
    | mk k' v' =>
      by_cases hk : k' = k
      · subst hk
        rw [assocSet, if_pos rfl] at h
        rcases List.mem_cons.mp h with h1 | h1
        · exact Or.inl h1
        · exact Or.inr (List.mem_cons_of_mem _ h1)
      · rw [assocSet, if_neg hk] at h
        rcases List.mem_cons.mp h with h1 | h1
        · exact Or.inr (by simp [h1])
        · rcases ih h1 with h2 | h2
          · exact Or.inl h2
          · exact Or.inr (List.mem_cons_of_mem _ h2)

theorem lookup_isSome_assocSet {α : Type} (l : List (Str × α)) (k : Str) (v : α)
    (k' : Str) (h : (l.lookup k').isSome) : ((assocSet l k v).lookup k').isSome := by
  induction l with
  | nil => simp at h
  | cons hd tl ih =>
    cases hd with
    | mk a b =>
      by_cases hk' : k' = a
      · subst hk'
        by_cases ha : k' = k
        · subst ha
          rw [assocSet, if_pos rfl]
          simp
        · rw [assocSet, if_neg (fun hc : k' = k => ha hc)]
          simp
      · rw [List.lookup_cons, beq_false_of_ne hk'] at h
        by_cases ha : a = k
        · subst ha
          rw [assocSet, if_pos rfl, List.lookup_cons, beq_false_of_ne hk']
          exact h
        · rw [assocSet, if_neg ha, List.lookup_cons, beq_false_of_ne hk']
          exact ih h

theorem mem_pyStrip {c : Char} {s : Str} (hm : c ∈ s) (hs : isSpc c = false) :
    c ∈ pyStrip s := by
  have drop1 : ∀ t : Str, c ∈ t → c ∈ t.dropWhile isSpc := by
    intro t ht
    induction t with
    | nil => simp at ht
    | cons hd tl ih =>
      by_cases hhd : isSpc hd
      · rw [List.dropWhile_cons_of_pos hhd]
        rcases List.mem_cons.mp ht with rfl | ht'
        · rw [hs] at hhd; cases hhd
        · exact ih ht'
      · rwa [List.dropWhile_cons_of_neg hhd]
  unfold pyStrip
  rw [List.mem_reverse]
  exact drop1 _ (by rw [List.mem_reverse]; exact drop1 _ hm)

theorem pyStrip_ne_nil_of_mem {c : Char} {s : Str} (hm : c ∈ s) (hs : isSpc c = false) :
    ¬ (pyStrip s).isEmpty := by
  have := mem_pyStrip hm hs
  cases h : pyStrip s with
  | nil => rw [h] at this; cases this
  | cons a l => simp

theorem expanduser_h5 (home s p : Str) (h : s = p ++ str ".h5") :
    ∃ q, expanduser home s = q ++ str ".h5" := by
  subst h
  cases p with
  | nil => exact ⟨[], by simp [expanduser, str]⟩
  | cons c cs =>
    by_cases hc : c = '~'
    · subst hc
      exact ⟨home ++ cs, by simp [expanduser]⟩
    · refine ⟨c :: cs, ?_⟩
      cases cs with
      | nil => simp [expanduser, str, hc]
      | cons d ds => simp [expanduser, str, hc]

theorem arange_lt (start stop step : ℚ) (hstep : 0 < step) :
    ∀ v ∈ arange start stop step, v < stop := by
  intro v hv
  rw [arange] at hv
  obtain ⟨i, hi, rfl⟩ := List.mem_map.mp hv
  rw [List.mem_range] at hi
  rw [qadd_eq, qmul_eq]
  unfold arangeLen at hi
  have hi0 : (i : ℤ) < ⌈qdiv (qsub stop start) step⌉ := Int.lt_toNat.mp hi
  rw [qdiv_eq, qsub_eq] at hi0
  have h1 : (i : ℚ) < (stop - start) / step := by exact_mod_cast Int.lt_ceil.mp hi0
  have h2 : (i : ℚ) * step < stop - start := (lt_div_iff₀ hstep).mp h1
  linarith

/-!
Claim theorems.
-/

theorem pySplitCharAux_no_sep (sep : Char) :
    ∀ (s cur : Str), sep ∉ s → pySplitCharAux sep s cur = [cur.reverse ++ s] := by
  intro s
  induction s with
  | nil => intro cur h; simp [pySplitCharAux]
  | cons c cs ih =>
    intro cur h
    have hc : ¬ c = sep := fun hc => h (hc ▸ List.mem_cons_self c cs)
    rw [pySplitCharAux, if_neg hc, ih (c :: cur) (fun hm => h (List.mem_cons_of_mem c hm))]
    simp

theorem pySplitCharAux_split (sep : Char) :
    ∀ (s1 s2 cur : Str), sep ∉ s1 →
      pySplitCharAux sep (s1 ++ sep :: s2) cur =
        (cur.reverse ++ s1) :: pySplitCharAux sep s2 [] := by
  intro s1
  induction s1 with
  | nil => intro s2 cur h; simp [pySplitCharAux]
  | cons c cs ih =>
    intro s2 cur h
    have hc : ¬ c = sep := fun hc => h (hc ▸ List.mem_cons_self c cs)
    rw [List.cons_append, pySplitCharAux, if_neg hc,
        ih s2 (c :: cur) (fun hm => h (List.mem_cons_of_mem c hm))]
    simp

theorem pySplitChar_two (sep : Char) (s1 s2 : Str) (h1 : sep ∉ s1) (h2 : sep ∉ s2) :
    pySplitChar sep (s1 ++ sep :: s2) = [s1, s2] := by
  rw [pySplitChar, pySplitCharAux_split sep s1 s2 [] h1, pySplitCharAux_no_sep sep s2 [] h2]
  simp

theorem count_single_sep (sep : Char) (s1 s2 : Str) (h1 : sep ∉ s1) (h2 : sep ∉ s2) :
    (s1 ++ sep :: s2).count sep = 1 := by
  rw [List.count_append, List.count_cons_self]
  rw [List.count_eq_zero.mpr h1, List.count_eq_zero.mpr h2]

theorem parseRangeToken_two (s1 s2 : Str) (a b : ℚ)
    (h1 : ':' ∉ s1) (h2 : ':' ∉ s2)
    (hn1 : ¬ s1.isEmpty = true) (hn2 : ¬ s2.isEmpty = true)
    (hf1 : pyFloat s1 = some a) (hf2 : pyFloat s2 = some b) :
    parseRangeToken (s1 ++ ':' :: s2) = .ok (arange a b 1) := by
  have hcount := count_single_sep ':' s1 s2 h1 h2
  rw [parseRangeToken, if_neg (by omega), if_pos hcount,
      pySplitChar_two ':' s1 s2 h1 h2]
  dsimp only
  rw [if_neg hn1, if_neg hn2, hf1, hf2]

/-- Configuration lines for a single-parameter block with
`PARAM X 0:5`. -/
def confLinesA : List Str :=
  [str "DECLARE X",
   str "DATAFILE f%d",
   str "DATAFILE_VALUES X",
   str "CMD_EXEC run",
   str "CMD_FILE mk",
   str "CMD_CHECKFILE chk",
   str "CMD_ACC getacc",
   str "PSPACE:",
   str "  PARAM X 0:5",
   str "  ACC 1e-6"]

/-- Configuration lines for a single-parameter block with
`PARAM X 1:10:3`. -/
def confLinesB : List Str :=
  [str "DECLARE X",
   str "DATAFILE f%d",
   str "DATAFILE_VALUES X",
   str "CMD_EXEC run",
   str "CMD_FILE mk",
   str "CMD_CHECKFILE chk",
   str "CMD_ACC getacc",
   str "PSPACE:",
   str "  PARAM X 1:10:3",
   str "  ACC 1e-6"]

/-- C2: a `start:stop` range expands with unit step and a
`start:stop:step` range with the given step, each value of the
arithmetic sequence lying strictly below `stop`; every well-formed
`start:stop` token expands to `arange start stop 1`; in particular
`PARAM X 0:5` expands `X` to exactly `[0,1,2,3,4]` and
`PARAM X 1:10:3` to exactly `[1,4,7]`. -/
theorem C2_param_ranges :
    (∀ start stop step : ℚ, 0 < step → ∀ v ∈ arange start stop step, v < stop) ∧
    (∀ (s1 s2 : Str) (a b : ℚ),
        ':' ∉ s1 → ':' ∉ s2 →
        ¬ s1.isEmpty = true → ¬ s2.isEmpty = true →
        pyFloat s1 = some a → pyFloat s2 = some b →
        parseRangeToken (s1 ++ ':' :: s2) = .ok (arange a b 1)) ∧
    (∀ start stop : ℚ, arange start stop 1 =
        (List.range (arangeLen start stop 1)).map (fun (i : Nat) => start + (i : ℚ))) ∧
    parseRangeToken (str "0:5") = .ok [0, 1, 2, 3, 4] ∧
    parseRangeToken (str "1:10:3") = .ok [1, 4, 7] ∧
    (parse_conf (str "/home/user") confLinesA).toOption.map
      (fun c => c.pspaces.map (fun b => b.values)) =
      some [[(str "X", [0, 1, 2, 3, 4])]] ∧
    (parse_conf (str "/home/user") confLinesB).toOption.map
      (fun c => c.pspaces.map (fun b => b.values)) =
      some [[(str "X", [1, 4, 7])]] := by
  refine ⟨arange_lt, parseRangeToken_two, ?_, by decide, by decide, by decide, by decide⟩
  intro start stop
  simp [arange, qadd_eq, qmul_eq]

/-- Witness for C2 at concrete inputs. -/
theorem C2_param_ranges_witness :
    ((0 : ℚ) < 1 ∧ (4 : ℚ) ∈ arange 0 5 1) ∧ (4 : ℚ) < 5 :=
  ⟨⟨by decide, by decide⟩, C2_param_ranges.1 0 5 1 (by decide) 4 (by decide)⟩

/-- A two-block expander configuration in which both blocks produce the
single key `f1.h5`, the earlier block with accuracy `1e-3` and the
later one with `1e-6`. -/
def expConfC1 (op : Str) : ExpConf :=
  { pnames := [str "X"],
    pspaces := [⟨[(str "X", [1])], mkRat 1 1000⟩,
                ⟨[(str "X", [1])], mkRat 1 1000000⟩],
    DATAFILE := str "f%d", DATAFILE_VALUES := [.var (str "X")],
    WORKDIR := str "/w", CMD_ACC_OP := op, home := str "/h" }

/-- A parameter set with the given accuracy target (concrete instance
data for the collision rule). -/
def accPset (a : ℚ) : Pset :=
  { values := [(str "X", 1)], ACC := a, FILE := str "f1.h5",
    RELPATH := str "/w/f1.h5", ABSPATH := str "/w/f1.h5" }

/-- C1: on a key collision the expander compares the existing entry's
accuracy target (first argument) against the new entry's (second
argument) with the configured operator; if the comparison holds the
existing entry is kept, otherwise the new entry replaces it.  Under
operator `<=` with accuracies `1e-3` (earlier block) and `1e-6` (later
block) the later entry wins; under `>=` the earlier entry survives. -/
theorem C1_collision_rule :
    (∀ (op : Str) (psets : List (Str × Pset)) (key : Str) (pset old : Pset) (b : Bool),
        psets.lookup key = some old →
        compare old.ACC pset.ACC op = .ok b →
        insertPset op psets key pset =
          .ok (if b then psets else assocSet psets key pset) ∧
        (assocSet psets key pset).lookup key = some pset) ∧
    (compute_psets (expConfC1 (str "<="))).toOption.map
      (fun l => l.map (fun kp => (kp.1, kp.2.ACC))) =
      some [(str "f1.h5", mkRat 1 1000000)] ∧
    (compute_psets (expConfC1 (str ">="))).toOption.map
      (fun l => l.map (fun kp => (kp.1, kp.2.ACC))) =
      some [(str "f1.h5", mkRat 1 1000)] := by
  refine ⟨?_, by decide, by decide⟩
  intro op psets key pset old b hl hc
  refine ⟨?_, assocSet_lookup_self psets key pset⟩
  rw [insertPset, hl]
  simp only [hc]
  cases b <;> simp

/-- Witness for C1 at a concrete collision. -/
theorem C1_collision_rule_witness :
    ([(str "k", accPset 1)].lookup (str "k") = some (accPset 1) ∧
     compare (accPset 1).ACC (accPset 2).ACC (str "<=") = .ok true) ∧
    (insertPset (str "<=") [(str "k", accPset 1)] (str "k") (accPset 2) =
       .ok (if true then [(str "k", accPset 1)]
            else assocSet [(str "k", accPset 1)] (str "k") (accPset 2)) ∧
     (assocSet [(str "k", accPset 1)] (str "k") (accPset 2)).lookup (str "k") =
       some (accPset 2)) :=
  ⟨⟨by decide, by decide⟩,
   C1_collision_rule.1 (str "<=") [(str "k", accPset 1)] (str "k")
     (accPset 2) (accPset 1) true (by decide) (by decide)⟩

theorem name_datafile_shape {conf : ExpConf} {env : List (Str × ℚ)} {df : Str}
    (h : name_datafile conf env = .ok df) :
    ∃ ints, evalRoundAll env conf.DATAFILE_VALUES = .ok ints ∧
      df = pyFormat conf.DATAFILE ints ++ str ".h5" := by
  rw [name_datafile] at h
  cases he : evalRoundAll env conf.DATAFILE_VALUES with
  | error e => rw [he] at h; cases h
  | ok ints =>
    rw [he] at h
    injection h with h
    exact ⟨ints, rfl, h.symm⟩

theorem insertPset_mem {op : Str} {psets : List (Str × Pset)} {k : Str} {v : Pset}
    {res : List (Str × Pset)} {kp : Str × Pset}
    (h : insertPset op psets k v = .ok res) (hm : kp ∈ res) :
    kp = (k, v) ∨ kp ∈ psets := by
  rw [insertPset] at h
  cases hl : psets.lookup k with
  | none =>
    rw [hl] at h
    injection h with h
    subst h
    exact mem_assocSet hm
  | some old =>
    rw [hl] at h
    simp only at h
    cases hc : compare old.ACC v.ACC op with
    | error e => rw [hc] at h; cases h
    | ok b =>
      rw [hc] at h
      cases b with
      | true =>
        simp only [if_true] at h
        injection h with h
        subst h
        exact Or.inr hm
      | false =>
        simp only [Bool.false_eq_true, if_false] at h
        injection h with h
        subst h
        exact mem_assocSet hm

theorem pcombToPset_h5 {conf : ExpConf} {acc : ℚ} {comb : List ℚ} {kp : Str × Pset}
    (h : pcombToPset conf acc comb = .ok kp) :
    ∃ p, kp.1 = p ++ str ".h5" := by
  rw [pcombToPset] at h
  cases hn : name_datafile conf (conf.pnames.zip comb) with
  | error e => rw [hn] at h; cases h
  | ok df0 =>
    rw [hn] at h
    simp only at h
    injection h with h
    obtain ⟨ints, _, hshape⟩ := name_datafile_shape hn
    have hh := expanduser_h5 conf.home df0 (pyFormat conf.DATAFILE ints) hshape
    subst h
    exact hh

theorem processCombs_h5 (conf : ExpConf) (acc : ℚ) :
    ∀ (combs : List (List ℚ)) (psets res : List (Str × Pset)),
      processCombs conf acc psets combs = .ok res →
      (∀ kp ∈ psets, ∃ p, kp.1 = p ++ str ".h5") →
      ∀ kp ∈ res, ∃ p, kp.1 = p ++ str ".h5" := by
  intro combs
  induction combs with
  | nil =>
    intro psets res h hinv
    rw [processCombs] at h
    injection h with h
    subst h
    exact hinv
  | cons comb rest ih =>
    intro psets res h hinv
    rw [processCombs] at h
    cases hp : pcombToPset conf acc comb with
    | error e => rw [hp] at h; cases h
    | ok kp0 =>
      rw [hp] at h
      simp only at h
      cases hi : insertPset conf.CMD_ACC_OP psets kp0.1 kp0.2 with
      | error e => rw [hi] at h; cases h
      | ok psets' =>
        rw [hi] at h
        refine ih psets' res h ?_
        intro kp' hkp'
        rcases insertPset_mem hi hkp' with h' | h'
        · subst h'
          exact pcombToPset_h5 hp
        · exact hinv _ h'

theorem processBlocks_h5 (conf : ExpConf) :
    ∀ (blocks : List ExpBlock) (psets res : List (Str × Pset)),
      processBlocks conf psets blocks = .ok res →
      (∀ kp ∈ psets, ∃ p, kp.1 = p ++ str ".h5") →
      ∀ kp ∈ res, ∃ p, kp.1 = p ++ str ".h5" := by
  intro blocks
  induction blocks with
  | nil =>
    intro psets res h hinv
    rw [processBlocks] at h
    injection h with h
    subst h
    exact hinv
  | cons blk blks ih =>
    intro psets res h hinv
    rw [processBlocks] at h
    cases hc : processCombs conf blk.acc psets
        (cartProd (conf.pnames.map (fun k => (blk.values.lookup k).getD []))) with
    | error e => rw [hc] at h; cases h
    | ok psets' =>
      rw [hc] at h
      exact ih psets' res h (processCombs_h5 conf blk.acc _ psets psets' hc hinv)

/-- C6: each key is obtained by evaluating the `DATAFILE_VALUES`
expressions on the parameter bindings, rounding each result to the
nearest integer, substituting positionally into the `DATAFILE`
template and appending the fixed `.h5` suffix; hence every key of the
expansion result ends in `.h5`. -/
theorem C6_datafile_key :
    (∀ (conf : ExpConf) (env : List (Str × ℚ)) (df : Str),
        name_datafile conf env = .ok df →
        ∃ ints, evalRoundAll env conf.DATAFILE_VALUES = .ok ints ∧
          df = pyFormat conf.DATAFILE ints ++ str ".h5") ∧
    (∀ (conf : ExpConf) (res : List (Str × Pset)) (kp : Str × Pset),
        compute_psets conf = .ok res → kp ∈ res →
        ∃ p, kp.1 = p ++ str ".h5") ∧
    name_datafile (expConfC1 (str "<=")) [(str "X", mkRat 7 5)] = .ok (str "f1.h5") := by
  refine ⟨fun conf env df h => name_datafile_shape h, ?_, by decide⟩
  intro conf res kp h hm
  rw [compute_psets] at h
  exact processBlocks_h5 conf conf.pspaces [] res h (by intro kp' h'; cases h') kp hm

/-- The parameter set surviving expansion of `expConfC1` under `<=`. -/
def c6Pset : Pset :=
  { values := [(str "X", 1)], ACC := mkRat 1 1000000, FILE := str "f1.h5",
    RELPATH := str "/w/f1.h5", ABSPATH := str "/w/f1.h5" }

/-- Witness for C6 at a concrete configuration. -/
theorem C6_datafile_key_witness :
    (compute_psets (expConfC1 (str "<=")) = .ok [(str "f1.h5", c6Pset)] ∧
     (str "f1.h5", c6Pset) ∈ [(str "f1.h5", c6Pset)]) ∧
    (∃ p, (str "f1.h5", c6Pset).1 = p ++ str ".h5") :=
  ⟨⟨by decide, by decide⟩,
   C6_datafile_key.2.1 (expConfC1 (str "<=")) [(str "f1.h5", c6Pset)]
     (str "f1.h5", c6Pset) (by decide) (by decide)⟩

/-- A parameter set binding `A` and `B` (concrete filter instances). -/
def abPset (a b : ℚ) : Pset :=
  { values := [(str "A", a), (str "B", b)], ACC := mkRat 1 1000,
    FILE := str "f", RELPATH := str "f", ABSPATH := str "f" }

/-- Input mapping for the concrete filter instances. -/
def abPsets : List (Str × Pset) :=
  [(str "k1", abPset 1 3), (str "k2", abPset 1 7), (str "k3", abPset 2 3)]

/-- C3: evaluating the filter at the claim's own vector — `A=1,B=:5`
against `[(A:1,B:3), (A:1,B:7), (A:2,B:3)]` — the call aborts with a
`TypeError` at the set `(A:1,B:7)` (src/__init__.py:1561 compares the
value against the absent `None` lower bound) instead of returning
`[(A:1,B:3)]` as the claim states; the second conjunct isolates the
faulty branch of the skip loop. -/
theorem C3_filter_typeerror :
    filter_psets abPsets (str "A=1,B=:5") [str "A", str "B"] =
      .error "TypeError: comparison of float and NoneType is not supported" ∧
    psetSkip (abPset 1 7) [(str "B", .interval none (some 5))] =
      .error "TypeError: comparison of float and NoneType is not supported" := by
  constructor
  · decide
  · decide

theorem filterLoop_ok_mem (fps : List (Str × FilterConstraint)) :
    ∀ (l acc res : List (Str × Pset)),
      filterLoop fps acc l = .ok res →
      ∀ kp ∈ res, kp ∈ acc ∨ (kp ∈ l ∧ psetSkip kp.2 fps = .ok false) := by
  intro l
  induction l with
  | nil =>
    intro acc res h kp hm
    injection h with h
    subst h
    exact Or.inl hm
  | cons hd tl ih =>
    intro acc res h kp hm
    obtain ⟨key, pset⟩ := hd
    rw [filterLoop] at h
    cases hs : psetSkip pset fps with
    | error e => rw [hs] at h; cases h
    | ok b =>
      rw [hs] at h
      cases b with
      | true =>
        dsimp only at h
        rcases ih acc res h kp hm with h1 | ⟨h1, h2⟩
        · exact Or.inl h1
        · exact Or.inr ⟨List.mem_cons_of_mem _ h1, h2⟩
      | false =>
        dsimp only at h
        rcases ih (acc ++ [(key, pset)]) res h kp hm with h1 | ⟨h1, h2⟩
        · rcases List.mem_append.mp h1 with h2 | h2
          · exact Or.inl h2
          · rw [List.mem_singleton] at h2
            subst h2
            exact Or.inr ⟨List.mem_cons_self _ _, hs⟩
        · exact Or.inr ⟨List.mem_cons_of_mem _ h1, h2⟩

theorem filterLoop_all_pass (fps : List (Str × FilterConstraint)) :
    ∀ (l acc : List (Str × Pset)),
      (∀ kp ∈ l, psetSkip kp.2 fps = .ok false) →
      filterLoop fps acc l = .ok (acc ++ l) := by
  intro l
  induction l with
  | nil => intro acc h; simp [filterLoop]
  | cons hd tl ih =>
    intro acc h
    obtain ⟨key, pset⟩ := hd
    rw [filterLoop, h (key, pset) (List.mem_cons_self _ _)]
    dsimp only
    rw [ih (acc ++ [(key, pset)]) (fun kp hm => h kp (List.mem_cons_of_mem _ hm))]
    simp

/-- C8: the subspace filter is idempotent — when a filter call
returns, filtering its result again with the same constraint string
returns it unchanged. -/
theorem C8_filter_idempotent :
    ∀ (psets : List (Str × Pset)) (opts : Str) (pnames : List Str)
      (res : List (Str × Pset)),
      filter_psets psets opts pnames = .ok res →
      filter_psets res opts pnames = .ok res := by
  intro psets opts pnames res h
  rw [filter_psets] at h ⊢
  cases hp : parseFilterParams opts pnames with
  | error e => rw [hp] at h; cases h
  | ok fps =>
    rw [hp] at h
    dsimp only at h ⊢
    have hall : ∀ kp ∈ res, psetSkip kp.2 fps = .ok false := by
      intro kp hm
      rcases filterLoop_ok_mem fps psets [] res h kp hm with h1 | ⟨_, h2⟩
      · cases h1
      · exact h2
    have h2 := filterLoop_all_pass fps res [] hall
    rwa [List.nil_append] at h2

/-- C9: the subspace filter only restricts — every entry of the result
is an entry of the input, bound to the identical parameter set. -/
theorem C9_filter_restricts :
    ∀ (psets : List (Str × Pset)) (opts : Str) (pnames : List Str)
      (res : List (Str × Pset)) (kp : Str × Pset),
      filter_psets psets opts pnames = .ok res → kp ∈ res → kp ∈ psets := by
  intro psets opts pnames res kp h hm
  rw [filter_psets] at h
  cases hp : parseFilterParams opts pnames with
  | error e => rw [hp] at h; cases h
  | ok fps =>
    rw [hp] at h
    dsimp only at h
    rcases filterLoop_ok_mem fps psets [] res h kp hm with h1 | ⟨h1, _⟩
    · cases h1
    · exact h1

/-- C7: a constraint value with more than one colon, a parameter name
repeated across the string, and an undeclared parameter name are all
hard errors of the filter's constraint parser, while a well-formed
string over declared names parses without error. -/
theorem C7_constraint_errors :
    (∀ (pnames : List Str) (acc : List (Str × FilterConstraint)) (pair k v : Str),
        pySplitChar '=' (pyStrip pair) = [k, v] →
        2 ≤ (pyStrip v).count ':' →
        ∃ e, parsePair pnames acc pair = .error e) ∧
    (∀ (pnames : List Str) (acc : List (Str × FilterConstraint)) (pair k v : Str),
        pySplitChar '=' (pyStrip pair) = [k, v] →
        pyStrip k ∈ acc.map Prod.fst →
        ∃ e, parsePair pnames acc pair = .error e) ∧
    (∀ (pnames : List Str) (acc : List (Str × FilterConstraint)) (pair k v : Str),
        pySplitChar '=' (pyStrip pair) = [k, v] →
        pnames ≠ [] →
        ¬ pyStrip k ∈ pnames →
        ∃ e, parsePair pnames acc pair = .error e) ∧
    parseFilterParams (str "A=1,B=:5") [str "A", str "B"] =
      .ok [(str "A", .exact 1), (str "B", .interval none (some 5))] := by
  have hne : ∀ (pair k v : Str), pySplitChar '=' (pyStrip pair) = [k, v] →
      ¬ (pyStrip pair).isEmpty = true := by
    intro pair k v hsplit hE
    rw [List.isEmpty_iff] at hE
    rw [hE] at hsplit
    simp [pySplitChar, pySplitCharAux] at hsplit
  refine ⟨?_, ?_, ?_, by decide⟩
  · intro pnames acc pair k v hsplit h2
    simp only [parsePair, hsplit, if_neg (hne pair k v hsplit)]
    by_cases hdup : pyStrip k ∈ acc.map Prod.fst
    · rw [if_pos hdup]
      exact ⟨_, rfl⟩
    · rw [if_neg hdup]
      by_cases hdecl : ¬ pnames.isEmpty = true ∧ ¬ pyStrip k ∈ pnames
      · rw [if_pos hdecl]
        exact ⟨_, rfl⟩
      · rw [if_neg hdecl, if_pos (by omega : (pyStrip v).count ':' ≠ 0),
            if_pos (by omega : 1 < (pyStrip v).count ':')]
        exact ⟨_, rfl⟩
  · intro pnames acc pair k v hsplit hdup
    simp only [parsePair, hsplit, if_neg (hne pair k v hsplit)]
    rw [if_pos hdup]
    exact ⟨_, rfl⟩
  · intro pnames acc pair k v hsplit hpn hkn
    simp only [parsePair, hsplit, if_neg (hne pair k v hsplit)]
    by_cases hdup : pyStrip k ∈ acc.map Prod.fst
    · rw [if_pos hdup]
      exact ⟨_, rfl⟩
    · rw [if_neg hdup,
          if_pos ⟨fun hE => hpn (List.isEmpty_iff.mp hE), hkn⟩]
      exact ⟨_, rfl⟩


/-- Witness for C7 at concrete constraint strings. -/
theorem C7_constraint_errors_witness :
    (pySplitChar '=' (pyStrip (str "A=1:2:3")) = [str "A", str "1:2:3"] ∧
     2 ≤ (pyStrip (str "1:2:3")).count ':') ∧
    (∃ e, parsePair [str "A"] [] (str "A=1:2:3") = .error e) :=
  ⟨⟨by decide, by decide⟩,
   C7_constraint_errors.1 [str "A"] [] (str "A=1:2:3") (str "A") (str "1:2:3")
     (by decide) (by decide)⟩

/-- Witness for C8 at a concrete non-aborting filter run. -/
theorem C8_filter_idempotent_witness :
    filter_psets abPsets (str "A=1,B=3:5") [str "A", str "B"] =
      .ok [(str "k1", abPset 1 3)] ∧
    filter_psets [(str "k1", abPset 1 3)] (str "A=1,B=3:5") [str "A", str "B"] =
      .ok [(str "k1", abPset 1 3)] :=
  ⟨by decide,
   C8_filter_idempotent abPsets (str "A=1,B=3:5") [str "A", str "B"]
     [(str "k1", abPset 1 3)] (by decide)⟩

/-- Witness for C9 at a concrete non-aborting filter run. -/
theorem C9_filter_restricts_witness :
    (filter_psets abPsets (str "A=1,B=3:5") [str "A", str "B"] =
       .ok [(str "k1", abPset 1 3)] ∧
     (str "k1", abPset 1 3) ∈ [(str "k1", abPset 1 3)]) ∧
    (str "k1", abPset 1 3) ∈ abPsets :=
  ⟨⟨by decide, by decide⟩,
   C9_filter_restricts abPsets (str "A=1,B=3:5") [str "A", str "B"]
     [(str "k1", abPset 1 3)] (str "k1", abPset 1 3) (by decide) (by decide)⟩

/-- Concrete qstat dump: one record, a known and an unknown attribute. -/
def qdumpLines : List Str :=
  [str "Job Id: 42.srv", str "    Job_Name = foo", str "    mystery = stuff"]

theorem qdataLoop_skip_blanks (qdata : List (Str × List (Str × AttrVal))) (jid : Str) :
    ∀ (pre rest : List Str), (∀ l ∈ pre, (pyStrip l).isEmpty = true) →
      qdataLoop qdata jid (pre ++ rest) = qdataLoop qdata jid rest := by
  intro pre
  induction pre with
  | nil => intro rest h; rfl
  | cons l ls ih =>
    intro rest h
    rw [List.cons_append, qdataLoop, if_pos (h l (List.mem_cons_self l ls))]
    exact ih rest (fun x hx => h x (List.mem_cons_of_mem l hx))

/-- C4: a `key = value` attribute line before any `Job Id:` marker
(possibly after blank lines) is a hard error of the dump parser, while
an attribute line with an unknown key does not fail the parse — its
value is stored verbatim on the current record. -/
theorem C4_qdump_errors :
    (∀ (pre : List Str) (k v : Str) (rest : List Str),
        (∀ l ∈ pre, (pyStrip l).isEmpty = true) →
        ¬ ((str "Job Id:").isPrefixOf (pyStrip (k ++ str "=" ++ v)) = true) →
        get_qdata (pre ++ (k ++ str "=" ++ v) :: rest) = .error "job_id is empty") ∧
    (get_qdata qdumpLines).toOption.map
      (fun q => q.map (fun r =>
        (r.1, r.2.lookup (str "Job_Name"), r.2.lookup (str "mystery ")))) =
      some [(str "42.srv", some (.s (str "foo")), some (.s (str " stuff")))] := by
  refine ⟨?_, by decide⟩
  intro pre k v rest hblank hpre
  have hmem : '=' ∈ k ++ str "=" ++ v := by
    simp [str]
  have hE : ¬ ((pyStrip (k ++ str "=" ++ v)).isEmpty = true) :=
    pyStrip_ne_nil_of_mem hmem (by decide)
  rw [get_qdata, qdataLoop_skip_blanks [] [] pre _ hblank, qdataLoop, if_neg hE]
  dsimp only
  rw [if_neg hpre]
  simp [List.isEmpty_nil]

/-- Witness for C4 at a concrete attribute line. -/
theorem C4_qdump_errors_witness :
    ((pyStrip (str "  ")).isEmpty = true ∧
     ¬ ((str "Job Id:").isPrefixOf (pyStrip (str "foo " ++ str "=" ++ str " bar")) = true)) ∧
    get_qdata ([str "  "] ++ (str "foo " ++ str "=" ++ str " bar") :: []) =
      .error "job_id is empty" :=
  ⟨⟨by decide, by decide⟩,
   C4_qdump_errors.1 [str "  "] (str "foo ") (str " bar") [] (by decide) (by decide)⟩

theorem lookup_initRecord :
    ∀ kt ∈ job_keys, initRecord.lookup kt.1 = some (typeDefault kt.2) := by decide

theorem recordSet_keys_isSome {qdata : List (Str × List (Str × AttrVal))}
    {jid k : Str} {v : AttrVal}
    (hinv : ∀ r ∈ qdata, ∀ kt ∈ job_keys, ((r.2).lookup kt.1).isSome) :
    ∀ r ∈ recordSet qdata jid k v, ∀ kt ∈ job_keys, ((r.2).lookup kt.1).isSome := by
  intro r hr kt hkt
  rw [recordSet] at hr
  obtain ⟨r0, hr0, rfl⟩ := List.mem_map.mp hr
  by_cases h : r0.1 = jid
  · rw [if_pos h]
    exact lookup_isSome_assocSet _ _ _ _ (hinv r0 hr0 kt hkt)
  · rw [if_neg h]
    exact hinv r0 hr0 kt hkt

theorem qdataLoop_keys :
    ∀ (lines : List Str) (qdata : List (Str × List (Str × AttrVal))) (jid : Str)
      (res : List (Str × List (Str × AttrVal))),
      qdataLoop qdata jid lines = .ok res →
      (∀ r ∈ qdata, ∀ kt ∈ job_keys, ((r.2).lookup kt.1).isSome) →
      ∀ r ∈ res, ∀ kt ∈ job_keys, ((r.2).lookup kt.1).isSome := by
  intro lines
  induction lines with
  | nil =>
    intro qdata jid res h hinv
    rw [qdataLoop] at h
    injection h with h
    subst h
    exact hinv
  | cons line rest ih =>
    intro qdata jid res h hinv
    rw [qdataLoop] at h
    by_cases hb : (pyStrip line).isEmpty
    · rw [if_pos hb] at h
      exact ih _ _ _ h hinv
    · rw [if_neg hb] at h
      dsimp only at h
      by_cases hm : (str "Job Id:").isPrefixOf (pyStrip line)
      · rw [if_pos hm] at h
        refine ih _ _ _ h ?_
        intro r hr kt hkt
        rcases mem_assocSet hr with h' | h'
        · rw [h']
          rw [lookup_initRecord kt hkt]
          rfl
        · exact hinv r h' kt hkt
      · rw [if_neg hm] at h
        by_cases hj : jid.isEmpty
        · rw [if_pos hj] at h
          cases h
        · rw [if_neg hj] at h
          cases hf : job_keys.find?
              (fun kt => (pySplitWs (pyStrip line)).headD [] = kt.1) with
          | some kt0 =>
            rw [hf] at h
            dsimp only at h
            cases hsp : pySplitChar1 '=' (pyStrip line) with
            | none => rw [hsp] at h; cases h
            | some p =>
              rw [hsp] at h
              dsimp only at h
              cases htc : typeConv kt0.2 (pyStrip p.2) with
              | error e => rw [htc] at h; cases h
              | ok v =>
                rw [htc] at h
                exact ih _ _ _ h (recordSet_keys_isSome hinv)
          | none =>
            rw [hf] at h
            dsimp only at h
            cases hsp : pySplitChar1 '=' (pyStrip line) with
            | none => rw [hsp] at h; cases h
            | some p =>
              rw [hsp] at h
              exact ih _ _ _ h (recordSet_keys_isSome hinv)

/-- C10: every record produced by the queue-snapshot parser binds
every attribute key of the fixed type table — a new record is
initialised with each known attribute at its declared type's default
value, so lookups of known attributes always succeed. -/
theorem C10_records_complete :
    (∀ (lines : List Str) (res : List (Str × List (Str × AttrVal))),
        get_qdata lines = .ok res →
        ∀ r ∈ res, ∀ kt ∈ job_keys, ((r.2).lookup kt.1).isSome) ∧
    (∀ kt ∈ job_keys, initRecord.lookup kt.1 = some (typeDefault kt.2)) := by
  refine ⟨?_, lookup_initRecord⟩
  intro lines res h
  exact qdataLoop_keys lines [] [] res h (by intro r hr; cases hr)

/-- Witness for C10 at a one-record dump. -/
theorem C10_records_complete_witness :
    (get_qdata [str "Job Id: 1"] = .ok [(str "1", initRecord)] ∧
     (str "1", initRecord) ∈ [(str "1", initRecord)] ∧
     (str "Job_Name", AttrType.str) ∈ job_keys) ∧
    (initRecord.lookup (str "Job_Name")).isSome = true :=
  ⟨⟨by decide, by decide, by decide⟩,
   C10_records_complete.1 [str "Job Id: 1"] [(str "1", initRecord)] (by decide)
     (str "1", initRecord) (by decide) (str "Job_Name", AttrType.str) (by decide)⟩

/-- Configuration prefix for the comment-handling instances; the
`CMD_EXEC` line carries a top-level inline comment. -/
def c5Base : List Str :=
  [str "DECLARE X",
   str "DATAFILE f%d",
   str "CMD_EXEC run  # top-level inline comment",
   str "CMD_FILE mk",
   str "CMD_CHECKFILE chk",
   str "CMD_ACC getacc",
   str "PSPACE:"]

/-- C5 counterexample: contrary to the claim that a `#` comment inside
a `PSPACE:` block never causes an error, an inline `# ...` suffix on a
`PARAM` line is not stripped — its tokens reach `float()` and the
parse fails. -/
theorem C5_counterexample :
    parse_conf (str "/h") (c5Base ++ [str "  PARAM X 1 # note", str "  ACC 1e-6"]) =
      .error "ValueError: could not convert string to float" := by decide

/-- C5 (amended): comment stripping happens only in the top-level
context, where a leading-`#` line is skipped and an inline `#` suffix
is cut before interpretation.  Inside a `PSPACE:` block nothing is
stripped: an indented line matching neither `PARAM` nor `ACC` — in
particular a whole-line `#` comment at the block's indentation — is
silently ignored and changes nothing, while an inline `# ...` suffix
on a `PARAM` or `ACC` line makes the parse fail. -/
theorem C5_comments_amended :
    (∀ (home : Str) (st : PState) (line : Str),
        st.context = true →
        headSpc line = true →
        st.indent = some (indentOf line) →
        ¬ (pyStrip line).isEmpty = true →
        (pySplitWsLim 1 (pyStrip line)).headD [] ≠ str "PARAM" →
        (pySplitWsLim 1 (pyStrip line)).headD [] ≠ str "ACC" →
        procLine home st line = .ok st) ∧
    (parse_conf (str "/h")
        (c5Base ++ [str "  # a comment", str "  PARAM X 1", str "  ACC 1e-6"])).toOption.map
      (fun c => c.pspaces.map (fun b => (b.values, b.acc))) =
      some [([(str "X", [1])], some (mkRat 1 1000000))] ∧
    (∃ e, parse_conf (str "/h")
        (c5Base ++ [str "  PARAM X 1 # note", str "  ACC 1e-6"]) = .error e) ∧
    (∃ e, parse_conf (str "/h")
        (c5Base ++ [str "  PARAM X 1", str "  ACC 1e-6 # note"]) = .error e) ∧
    (parse_conf (str "/h") (c5Base ++ [str "  PARAM X 1", str "  ACC 1e-6"])).toOption.map
      (fun c => c.CMD_EXEC) = some (str "run") := by
  refine ⟨?_, by decide,
          ⟨"ValueError: could not convert string to float", by decide⟩,
          ⟨"syntax error", by decide⟩, by decide⟩
  intro home st line hctx hsp hind hne hparam hacc
  rw [procLine, if_neg hne]
  rw [if_neg (fun hand : st.context = true ∧ ¬ headSpc line = true => hand.2 hsp)]
  rw [if_pos hctx, hind]
  dsimp only
  rw [if_neg (fun hd : indentOf line ≠ indentOf line => hd rfl)]
  rw [pspaceLine, if_neg hparam, if_neg hacc]

/-- Witness for the amended C5 at a concrete in-block comment line. -/
theorem C5_comments_amended_witness :
    ((⟨initConf, true, some 2⟩ : PState).context = true ∧
     headSpc (str "  # hi") = true ∧
     (⟨initConf, true, some 2⟩ : PState).indent = some (indentOf (str "  # hi")) ∧
     ¬ (pyStrip (str "  # hi")).isEmpty = true ∧
     (pySplitWsLim 1 (pyStrip (str "  # hi"))).headD [] ≠ str "PARAM" ∧
     (pySplitWsLim 1 (pyStrip (str "  # hi"))).headD [] ≠ str "ACC") ∧
    procLine (str "/h") ⟨initConf, true, some 2⟩ (str "  # hi") =
      .ok ⟨initConf, true, some 2⟩ :=
  ⟨⟨rfl, by decide, by decide, by decide, by decide, by decide⟩,
   C5_comments_amended.1 (str "/h") ⟨initConf, true, some 2⟩ (str "  # hi")
     rfl (by decide) (by decide) (by decide) (by decide) (by decide)⟩

end Pspace
